import Mathlib

/-!
A shallow embedding of `src/FreeDraw.js` (Leaflet.FreeDraw): the pointer
state machine in `listenForEvents` (mouseDown / mouseMove / mouseUp /
touchStart), the facade methods `mode`, `cancel`, `remove`, and the
constructor option merging.  Helpers that live outside the provided source
tree (`helpers/Flags.js`, `helpers/Polygon.js`, `helpers/Layer.js`) are
modelled from the specification and say so in their doc comments.
Host-map capabilities (coordinate conversion) are external collaborators
and are modelled as simple injective conversions.
-/

namespace FreeDraw

/-- Modelled from the spec: `helpers/Flags.js` is not in the source tree.
§6 describes CREATE, EDIT, DELETE, APPEND as bit values forming a
combinable set, with EDIT_APPEND, NONE and ALL as sentinel combinations. -/
def CREATE : Nat := 1

/-- Modelled from the spec: the EDIT mode bit (`helpers/Flags.js`). -/
def EDIT : Nat := 2

/-- Modelled from the spec: the DELETE mode bit (`helpers/Flags.js`). -/
def DELETE : Nat := 4

/-- Modelled from the spec: the APPEND mode bit (`helpers/Flags.js`). -/
def APPEND : Nat := 8

/-- Modelled from the spec: EDIT and APPEND combined (`helpers/Flags.js`). -/
def EDIT_APPEND : Nat := EDIT ||| APPEND

/-- Modelled from the spec: the empty mode set (`helpers/Flags.js`). -/
def NONE : Nat := 0

/-- Modelled from the spec: all mode bits combined (`helpers/Flags.js`). -/
def ALL : Nat := CREATE ||| EDIT ||| DELETE ||| APPEND

/-- A JavaScript number that may be `Infinity` (used by `maximumPolygons`,
whose default is `Infinity`). -/
inductive JsNum where
  | fin (q : ℚ)
  | inf
  deriving DecidableEq, Repr

/-- The recognized engine options (`defaultOptions` keys in FreeDraw.js). -/
structure Options where
  mode : Nat
  smoothFactor : ℚ
  elbowDistance : ℚ
  simplifyFactor : ℚ
  mergePolygons : Bool
  concavePolygon : Bool
  maximumPolygons : JsNum
  notifyAfterEditExit : Bool
  leaveModeAfterCreate : Bool
  strokeWidth : ℚ
  deriving DecidableEq, Repr

/-- `defaultOptions` from FreeDraw.js lines 28-39. -/
def defaultOptions : Options where
  mode := ALL
  smoothFactor := mkRat 3 10
  elbowDistance := 10
  simplifyFactor := mkRat 11 10
  mergePolygons := true
  concavePolygon := true
  maximumPolygons := JsNum.inf
  notifyAfterEditExit := false
  leaveModeAfterCreate := false
  strokeWidth := 2

/-- A partial options object passed by the caller: absent keys are `none`. -/
structure PartialOptions where
  mode : Option Nat
  smoothFactor : Option ℚ
  elbowDistance : Option ℚ
  simplifyFactor : Option ℚ
  mergePolygons : Option Bool
  concavePolygon : Option Bool
  maximumPolygons : Option JsNum
  notifyAfterEditExit : Option Bool
  leaveModeAfterCreate : Option Bool
  strokeWidth : Option ℚ
  deriving DecidableEq, Repr

/-- JavaScript object spread `{ ...base, ...p }` over the recognized option
keys: a key present in `p` overrides the one of `base`. -/
def spreadMerge (base : Options) (p : PartialOptions) : Options where
  mode := p.mode.getD base.mode
  smoothFactor := p.smoothFactor.getD base.smoothFactor
  elbowDistance := p.elbowDistance.getD base.elbowDistance
  simplifyFactor := p.simplifyFactor.getD base.simplifyFactor
  mergePolygons := p.mergePolygons.getD base.mergePolygons
  concavePolygon := p.concavePolygon.getD base.concavePolygon
  maximumPolygons := p.maximumPolygons.getD base.maximumPolygons
  notifyAfterEditExit := p.notifyAfterEditExit.getD base.notifyAfterEditExit
  leaveModeAfterCreate := p.leaveModeAfterCreate.getD base.leaveModeAfterCreate
  strokeWidth := p.strokeWidth.getD base.strokeWidth

/-- A full options object viewed as a JS object with every key present
(used for the default argument `options = defaultOptions`). -/
def partialOfOptions (o : Options) : PartialOptions where
  mode := some o.mode
  smoothFactor := some o.smoothFactor
  elbowDistance := some o.elbowDistance
  simplifyFactor := some o.simplifyFactor
  mergePolygons := some o.mergePolygons
  concavePolygon := some o.concavePolygon
  maximumPolygons := some o.maximumPolygons
  notifyAfterEditExit := some o.notifyAfterEditExit
  leaveModeAfterCreate := some o.leaveModeAfterCreate
  strokeWidth := some o.strokeWidth

/-- FreeDraw.js constructor, lines 78-82:
`constructor(options = defaultOptions) { this.options = { ...defaultOptions, ...options } }`.
`none` models calling the constructor with no argument. -/
def constructorOptions (arg : Option PartialOptions) : Options :=
  spreadMerge defaultOptions (arg.getD (partialOfOptions defaultOptions))

/-- A container pixel point (screen-space coordinate). -/
structure Pixel where
  x : ℚ
  y : ℚ
  deriving DecidableEq, Repr

/-- A Leaflet LatLng object: a latitude/longitude value together with the
identity of its allocation.  ES6 `Set` membership on objects is
SameValueZero, i.e. reference identity, so the object identity `oid`
participates in equality of elements. -/
structure LatLng where
  oid : Nat
  lat : ℚ
  lng : ℚ
  deriving DecidableEq, Repr

/-- The latitude/longitude value of a LatLng object, identity forgotten. -/
def LatLng.val (p : LatLng) : ℚ × ℚ := (p.lat, p.lng)

/-- `Set.prototype.add` of es6-set, on an insertion-ordered carrier list:
appends the element unless an element equal under SameValueZero is already
present. -/
def setAdd (s : List LatLng) (p : LatLng) : List LatLng :=
  if p ∈ s then s else s ++ [p]

/-- Host map capability (external collaborator): `map.mouseEventToContainerPoint`
converts an event's client coordinates to a container pixel point; modelled
as the identity on the client coordinates. -/
def mouseEventToContainerPoint (cx cy : ℚ) : Pixel := ⟨cx, cy⟩

/-- Host map capability: `map.containerPointToLatLng`.  Leaflet constructs a
fresh LatLng object on every call, so the result carries a fresh object
identity drawn from the allocator counter. -/
def containerPointToLatLng (nextOid : Nat) (p : Pixel) : LatLng :=
  ⟨nextOid, p.x, p.y⟩

/-- Host map capability: `map.latLngToContainerPoint`, modelled as the
inverse of the pixel-to-geo value conversion. -/
def latLngToContainerPoint (ll : ℚ × ℚ) : Pixel := ⟨ll.1, ll.2⟩

/-- A JavaScript value, as far as the `mode` method needs to inspect one
(`typeof mode === 'number'`). -/
inductive JsVal where
  | null
  | undef
  | num (n : Nat)
  | str (s : String)
  | boolean (b : Bool)
  deriving DecidableEq, Repr

/-- `typeof v === 'number'`. -/
def JsVal.isNumber : JsVal → Bool
  | .num _ => true
  | _ => false

/-- A DOM / Leaflet event, restricted to the fields the handlers read.
`etype` is `event.type` (`none` for a plain object literal such as the `{}`
passed by the cancel hook); `touches` holds the client coordinates of
`event.touches[0]` when present; `latlng` is set on Leaflet map events. -/
structure JsEvent where
  etype : Option String
  clientX : ℚ
  clientY : ℚ
  touches : Option Pixel
  latlng : Option (ℚ × ℚ)
  deriving DecidableEq, Repr

/-- The state of `map[cancelKey]`: either the no-op installed by `onAdd`
and by `mouseUp`, or the armed hook `() => mouseUp({}, false)` installed
by `mouseDown`. -/
inductive CancelHook where
  | noop
  | active
  deriving DecidableEq, Repr

/-- The observable state of one map with FreeDraw attached: the mode
bitmask `map[modesKey]`, the cancel hook, which gesture listeners are
registered, the closure state of `listenForEvents` (`latLngs`,
`lineIterator`'s last point), the SVG canvas (whether the SVG element is
attached and the count of appended path segments), the per-map polygon
store (`storePresent` is `polygons.has(map)`: `onRemove` deletes the
whole WeakMap entry), the permanent mousedown/touchstart listeners
(`downListenersOn`), the map-object appendages `map[cancelKey]`,
`map[instanceKey]` and `map.simplifyPolygon` (present until `onRemove`
deletes them), the log of fired change notifications, the LatLng
allocation counter, and whether the layer is still on the map. -/
structure MapState where
  opts : Options
  modes : Nat
  cancelHook : CancelHook
  mouseMoveOn : Bool
  mouseUpOn : Bool
  touchMoveOn : Bool
  touchEndOn : Bool
  bodyLeaveOn : Bool
  latLngs : List LatLng
  lastPoint : Option Pixel
  svgAttached : Bool
  svgPaths : Nat
  store : List Nat
  storePresent : Bool
  nextPolyId : Nat
  notifications : List String
  nextOid : Nat
  layerOnMap : Bool
  downListenersOn : Bool
  cancelKeyPresent : Bool
  instanceKeyPresent : Bool
  simplifyPresent : Bool
  deriving DecidableEq, Repr

/-- Modelled from the spec: `updateFor` of `helpers/Layer.js` is not in the
source tree; §6 says a change notification with a reason tag is emitted.
Modelled as appending the reason to the notification log. -/
def updateFor (st : MapState) (reason : String) : MapState :=
  { st with notifications := st.notifications ++ [reason] }

/-- First-occurrence value deduplication of a point sequence. -/
def distinctVals (ps : List (ℚ × ℚ)) : List (ℚ × ℚ) :=
  ps.foldl (fun acc v => if v ∈ acc then acc else acc ++ [v]) []

/-- Whether inserting one more polygon would exceed `maximumPolygons`. -/
def atCap (st : MapState) : Bool :=
  match st.opts.maximumPolygons with
  | JsNum.inf => false
  | JsNum.fin q => q ≤ (st.store.length : ℚ)

/-- Modelled from the spec: `createFor` of `helpers/Polygon.js` is not in
the source tree.  §4.3: the builder simplifies the point sequence and, if
fewer than 3 distinct vertices remain, fails with InsufficientPoints —
silently, producing no polygon and leaving the store unchanged; otherwise
it inserts one finalized polygon, subject to the `maximumPolygons` cap.
Spatial merging of overlapping polygons (§4.3 step 5) is not modelled:
no claim below exercises a store that already holds an overlapping
polygon. -/
def createFor (st : MapState) (pts : List (ℚ × ℚ)) : MapState :=
  if (distinctVals pts).length < 3 then st
  else if atCap st then st
  else { st with store := st.store ++ [st.nextPolyId], nextPolyId := st.nextPolyId + 1 }

/-- Modelled from the spec: `removeFor` of `helpers/Polygon.js` is not in
the source tree; §4.3 says it deletes one polygon from the store,
idempotently. -/
def removeFor (st : MapState) (pid : Nat) : MapState :=
  { st with store := st.store.filter (fun q => q ≠ pid) }

/-- Modelled from the spec: `modeFor` of `helpers/Flags.js` is not in the
source tree; §4.1 says it validates and assigns the mode set to the map. -/
def modeFor (st : MapState) (m : Nat) : MapState :=
  { st with modes := m }

/-- FreeDraw.js `mode` method, lines 181-185: assigns via `modeFor` only if
the argument is numeric, then yields the current `map[modesKey]`.  Calling
`mode()` with no argument is `modeMethod st JsVal.null` (the default
parameter is `null`).  Returns the updated state and the returned mask. -/
def modeMethod (st : MapState) (arg : JsVal) : MapState × Nat :=
  let st1 := match arg with
    | JsVal.num n => modeFor st n
    | _ => st
  (st1, st1.modes)

/-- The client-coordinate source used by `mouseMove`:
`let e = event.originalEvent || event; if (e.touches) { e = e.touches[0]; }`. -/
def eventPixel (e : JsEvent) : Pixel :=
  match e.touches with
  | some t => t
  | none => ⟨e.clientX, e.clientY⟩

/-- FreeDraw.js `mouseMove`, lines 243-264: converts the event to a
container point, adds the corresponding (freshly allocated) LatLng to the
`latLngs` set, and invokes the line iterator, which appends one SVG path
segment and updates its closed-over last point. -/
def mouseMove (st : MapState) (e : JsEvent) : MapState :=
  let point := mouseEventToContainerPoint (eventPixel e).x (eventPixel e).y
  let g := containerPointToLatLng st.nextOid point
  { st with latLngs := setAdd st.latLngs g
            nextOid := st.nextOid + 1
            svgPaths := st.svgPaths + 1
            lastPoint := some point }

/-- The teardown block of FreeDraw.js `mouseUp`, lines 280-292: disarm the
cancel hook, unregister the mousemove/mouseup map listeners, the
touchmove/touchend container listeners and the body mouseleave listener,
and clear the SVG canvas (`svg.selectAll('*').remove()`). -/
def teardown (st : MapState) : MapState :=
  { st with cancelHook := CancelHook.noop
            mouseUpOn := false
            mouseMoveOn := false
            touchMoveOn := false
            touchEndOn := false
            bodyLeaveOn := false
            svgPaths := 0 }

/-- The last line of the `if (create)` block of FreeDraw.js `mouseUp`
(line 304): `options.leaveModeAfterCreate && this.mode(this.mode() ^ CREATE)`,
where `this.mode()` reads the current mask and `this.mode(n)` assigns via
`modeFor`. -/
def finishMode (st : MapState) : MapState :=
  if st.opts.leaveModeAfterCreate then
    (modeMethod st (JsVal.num ((modeMethod st JsVal.null).2 ^^^ CREATE))).1
  else st

/-- The `if (create)` block of FreeDraw.js `mouseUp`, lines 294-306:
`latLngs.size && createFor(map, Array.from(latLngs), options)`, then
`updateFor(map, 'create')` unconditionally, then the `leaveModeAfterCreate`
step. -/
def finishCreate (st : MapState) : MapState :=
  finishMode
    (updateFor (if st.latLngs.length ≠ 0 then createFor st (st.latLngs.map LatLng.val) else st)
      "create")

/-- FreeDraw.js `mouseUp`, lines 271-310: a `pointercancel` event returns
immediately, before any teardown; any other invocation tears down and, when
`create` holds, runs the creation block. -/
def mouseUp (st : MapState) (e : JsEvent) (create : Bool) : MapState :=
  if e.etype = some "pointercancel" then st
  else if create then finishCreate (teardown st) else teardown st

/-- FreeDraw.js `mouseDown`, lines 331-379: gated on the CREATE bit of
`map[modesKey]`; ignores the degenerate (0,0)-coordinate events fired by
touch emulation; otherwise resets the stroke state, creates the line
iterator at the event's container point, registers mousemove/mouseup (only
for non-touch events) and the body mouseleave listener, and arms the cancel
hook with `() => mouseUp({}, false)`. -/
def mouseDown (st : MapState) (e : JsEvent) : MapState :=
  if st.modes &&& CREATE = 0 then st
  else if e.clientX = 0 ∧ e.clientY = 0 then st
  else
    let st1 := { st with latLngs := ([] : List LatLng), lastPoint := none }
    let point := match e.latlng with
      | some ll => latLngToContainerPoint ll
      | none => mouseEventToContainerPoint e.clientX e.clientY
    let st2 := { st1 with lastPoint := some point }
    let st3 := if e.touches = none
      then { st2 with mouseMoveOn := true, mouseUpOn := true }
      else st2
    { st3 with bodyLeaveOn := true, cancelHook := CancelHook.active }

/-- The mousedown event synthesized by `_simulateEvent('mousedown', event)`,
lines 211-224: a MouseEvent carrying the original event's client
coordinates, with no `touches` list and no `latlng`. -/
def simulatedMouseDown (e : JsEvent) : JsEvent :=
  { etype := some "mousedown", clientX := e.clientX, clientY := e.clientY,
    touches := none, latlng := none }

/-- FreeDraw.js `touchStart`, lines 312-324: gated on the CREATE bit;
registers the touchmove/touchend container listeners, then dispatches a
simulated mousedown which reaches the `mouseDown` handler. -/
def touchStart (st : MapState) (e : JsEvent) : MapState :=
  if st.modes &&& CREATE = 0 then st
  else
    let st1 := { st with touchMoveOn := true, touchEndOn := true }
    mouseDown st1 (simulatedMouseDown e)

/-- The plain object literal `{}` passed by the cancel hook to `mouseUp`:
its `type` property is `undefined`. -/
def emptyEvent : JsEvent :=
  { etype := none, clientX := 0, clientY := 0, touches := none, latlng := none }

/-- FreeDraw.js `cancel` method, lines 204-209: invokes `map[cancelKey]`,
which is a no-op unless a capture is in progress, in which case it is
`() => mouseUp({}, false)`. -/
def cancel (st : MapState) : MapState :=
  match st.cancelHook with
  | CancelHook.noop => st
  | CancelHook.active => mouseUp st emptyEvent false

/-- FreeDraw.js `onRemove`, lines 124-143, the layer-detach hook Leaflet
invokes synchronously when the layer is taken off the map:
`polygons.delete(map)` destroys the whole per-map store entry,
`this.svg.remove()` takes the SVG layer (and all its path children) out of
the DOM, the `map[cancelKey]`, `map[instanceKey]` and `map.simplifyPolygon`
appendages are deleted from the map object, and — `mouseDownHandler` having
been set by `listenForEvents` — the permanent mousedown/touchstart
listeners are unregistered. -/
def onRemove (st : MapState) : MapState :=
  { st with store := []
            storePresent := false
            svgAttached := false
            svgPaths := 0
            cancelKeyPresent := false
            instanceKeyPresent := false
            simplifyPresent := false
            downListenersOn := false }

/-- Leaflet `Layer.remove` / `removeFrom` (the external superclass of
FreeDraw): takes the layer off the map, which synchronously fires the
layer's `onRemove` hook — a no-op when the layer is not on a map. -/
def superRemove (st : MapState) : MapState :=
  if st.layerOnMap then { onRemove st with layerOnMap := false } else st

/-- FreeDraw.js `remove` method, lines 162-165:
`polygon ? removeFor(this.map, polygon) : super.remove()`, then
`updateFor(this.map, 'remove')`.  A falsy `polygon` argument is modelled as
`none`; `super.remove()` runs the whole superclass removal, including the
synchronous `onRemove` re-entry, before the notification fires. -/
def removeMethod (st : MapState) (p : Option Nat) : MapState :=
  let st1 := match p with
    | some pid => removeFor st pid
    | none => superRemove st
  updateFor st1 "remove"

/-- The state right after `onAdd(map)`, lines 89-117: no-op cancel hook,
the cancel/instance/simplify appendages attached to the map, an empty
polygon store present in the `polygons` WeakMap, initial mode assigned from
the options via `modeFor`, an attached empty SVG canvas, the permanent
mousedown/touchstart listeners registered by `listenForEvents`, and no
gesture listeners registered yet. -/
def initState (o : Options) : MapState where
  opts := o
  modes := o.mode
  cancelHook := CancelHook.noop
  mouseMoveOn := false
  mouseUpOn := false
  touchMoveOn := false
  touchEndOn := false
  bodyLeaveOn := false
  latLngs := []
  lastPoint := none
  svgAttached := true
  svgPaths := 0
  store := []
  storePresent := true
  nextPolyId := 0
  notifications := []
  nextOid := 0
  layerOnMap := true
  downListenersOn := true
  cancelKeyPresent := true
  instanceKeyPresent := true
  simplifyPresent := true

/-- The spec §4.2 Capturing state: a gesture has started and its cancel
hook is armed. -/
def isCapturing (st : MapState) : Bool := st.cancelHook == CancelHook.active

/-- The mouseleave event the document body delivers. -/
def mouseLeaveEvent : JsEvent :=
  { etype := some "mouseleave", clientX := 0, clientY := 0, touches := none, latlng := none }

/-- An external stimulus delivered to the attached instance. -/
inductive Ev where
  | down (e : JsEvent)
  | tstart (e : JsEvent)
  | move (e : JsEvent)
  | up (e : JsEvent)
  | leaveBody
  | cancelCall
  | modeCall (arg : JsVal)
  deriving DecidableEq, Repr

/-- Event dispatch: each handler runs only while its listener is
registered — mousedown/touchstart from `listenForEvents` until `onRemove`
unregisters them, move/up handlers only during a capture; the body
mouseleave listener invokes `mouseUp` with `create` defaulted to true. -/
def step (st : MapState) (ev : Ev) : MapState :=
  match ev with
  | Ev.down e => if st.downListenersOn then mouseDown st e else st
  | Ev.tstart e => if st.downListenersOn then touchStart st e else st
  | Ev.move e => if st.mouseMoveOn || st.touchMoveOn then mouseMove st e else st
  | Ev.up e => if st.mouseUpOn || st.touchEndOn then mouseUp st e true else st
  | Ev.leaveBody => if st.bodyLeaveOn then mouseUp st mouseLeaveEvent true else st
  | Ev.cancelCall => cancel st
  | Ev.modeCall arg => (modeMethod st arg).1

/-- Folding a sequence of stimuli through the dispatcher. -/
def steps (st : MapState) : List Ev → MapState
  | [] => st
  | ev :: rest => steps (step st ev) rest

/-- A plain mousedown event at the given client coordinates. -/
def mdEvent (x y : ℚ) : JsEvent := ⟨some "mousedown", x, y, none, none⟩

/-- A plain mousemove event at the given client coordinates. -/
def mmEvent (x y : ℚ) : JsEvent := ⟨some "mousemove", x, y, none, none⟩

/-- A plain mouseup event at the given client coordinates. -/
def muEvent (x y : ℚ) : JsEvent := ⟨some "mouseup", x, y, none, none⟩

/-- A pointercancel event, as delivered to the touchend listener by hosts
that implement touch listeners with pointer events. -/
def pcEvent : JsEvent := ⟨some "pointercancel", 0, 0, none, none⟩

/-- The object-identity invariant of the stroke set: every LatLng object in
it was allocated below the current allocator counter, and no two entries
are the same object. -/
def oidInv (st : MapState) : Prop :=
  (∀ p ∈ st.latLngs, p.oid < st.nextOid) ∧ (st.latLngs.map LatLng.oid).Nodup

instance oidInvDecidable (st : MapState) : Decidable (oidInv st) :=
  inferInstanceAs (Decidable
    ((∀ p ∈ st.latLngs, p.oid < st.nextOid) ∧ (st.latLngs.map LatLng.oid).Nodup))

/-- A gesture that captured a single point: mousedown at (5,5), one move at
(6,6); the mouseup has not arrived yet. -/
def c1WitnessSt : MapState :=
  steps (initState defaultOptions) [Ev.down (mdEvent 5 5), Ev.move (mmEvent 6 6)]

/-- A state in the middle of a capture: mousedown at (5,5) and one move at
(6,6), so the move/up listeners are registered and one SVG segment drawn. -/
def c2CapSt : MapState :=
  steps (initState defaultOptions) [Ev.down (mdEvent 5 5), Ev.move (mmEvent 6 6)]

/-- A capture that visits the point value (1,2), then (3,4), then (1,2)
again. -/
def c3RepeatSt : MapState :=
  steps (initState defaultOptions)
    [Ev.down (mdEvent 5 5), Ev.move (mmEvent 1 2), Ev.move (mmEvent 3 4), Ev.move (mmEvent 1 2)]

/-- A capture holding one point so far, used to instantiate the stroke
invariant theorem. -/
def c3WitnessSt : MapState :=
  steps (initState defaultOptions) [Ev.down (mdEvent 5 5), Ev.move (mmEvent 3 4)]

/-- An instance configured with EDIT mode only, so the CREATE bit is unset. -/
def c4St : MapState := initState { defaultOptions with mode := EDIT }

/-- A configuration with `leaveModeAfterCreate` enabled. -/
def c6Opts : Options := { defaultOptions with leaveModeAfterCreate := true }

/-- Under `leaveModeAfterCreate`: a capture of three distinct points during
which the application switches the mode to EDIT (clearing the CREATE bit)
before the mouseup arrives. -/
def c6Mid : MapState :=
  steps (initState c6Opts)
    [Ev.down (mdEvent 5 5), Ev.move (mmEvent 1 2), Ev.move (mmEvent 3 4), Ev.move (mmEvent 3 7),
     Ev.modeCall (JsVal.num EDIT)]

/-- Under `leaveModeAfterCreate`: a capture of three distinct points with
the CREATE bit still set when the mouseup arrives. -/
def c6WitnessSt : MapState :=
  steps (initState c6Opts)
    [Ev.down (mdEvent 5 5), Ev.move (mmEvent 1 2), Ev.move (mmEvent 3 4), Ev.move (mmEvent 3 7)]

/-- A default instance after one full three-distinct-point gesture, so the
per-map store is present and holds exactly one polygon. -/
def c10St : MapState :=
  steps (initState defaultOptions)
    [Ev.down (mdEvent 5 5), Ev.move (mmEvent 1 2), Ev.move (mmEvent 3 4), Ev.move (mmEvent 3 7),
     Ev.up (muEvent 3 7)]

theorem createFor_short (st : MapState) (pts : List (ℚ × ℚ))
    (h : (distinctVals pts).length < 3) : createFor st pts = st := by
  unfold createFor
  rw [if_pos h]

theorem createFor_preserves (st : MapState) (pts : List (ℚ × ℚ)) :
    (createFor st pts).opts = st.opts ∧ (createFor st pts).modes = st.modes ∧
    (createFor st pts).notifications = st.notifications ∧
    (createFor st pts).mouseMoveOn = st.mouseMoveOn ∧
    (createFor st pts).mouseUpOn = st.mouseUpOn ∧
    (createFor st pts).touchMoveOn = st.touchMoveOn ∧
    (createFor st pts).touchEndOn = st.touchEndOn ∧
    (createFor st pts).bodyLeaveOn = st.bodyLeaveOn ∧
    (createFor st pts).svgPaths = st.svgPaths ∧
    (createFor st pts).cancelHook = st.cancelHook := by
  unfold createFor
  split_ifs <;> simp

theorem mouseUp_create_eq (st : MapState) (e : JsEvent)
    (hpc : e.etype ≠ some "pointercancel") :
    mouseUp st e true = finishCreate (teardown st) := by
  unfold mouseUp
  rw [if_neg hpc]
  rfl

theorem finishCreate_short (st : MapState)
    (h : (distinctVals (st.latLngs.map LatLng.val)).length < 3) :
    (finishCreate st).store = st.store ∧
    (finishCreate st).notifications = st.notifications ++ ["create"] := by
  unfold finishCreate
  have h2 : (if st.latLngs.length ≠ 0 then createFor st (st.latLngs.map LatLng.val) else st)
      = st := by
    split
    · exact createFor_short st _ h
    · rfl
  rw [h2]
  unfold finishMode updateFor modeMethod modeFor
  split_ifs <;> simp

theorem finishCreate_teardown_fields (st : MapState) :
    (finishCreate st).mouseMoveOn = st.mouseMoveOn ∧
    (finishCreate st).mouseUpOn = st.mouseUpOn ∧
    (finishCreate st).touchMoveOn = st.touchMoveOn ∧
    (finishCreate st).touchEndOn = st.touchEndOn ∧
    (finishCreate st).bodyLeaveOn = st.bodyLeaveOn ∧
    (finishCreate st).svgPaths = st.svgPaths ∧
    (finishCreate st).cancelHook = st.cancelHook := by
  unfold finishCreate finishMode updateFor modeMethod modeFor createFor
  split_ifs <;> simp

theorem finishCreate_modes (st : MapState) (hopt : st.opts.leaveModeAfterCreate = true) :
    (finishCreate st).modes = st.modes ^^^ CREATE := by
  unfold finishCreate finishMode updateFor modeMethod modeFor createFor
  split_ifs <;> simp_all

theorem xor_create_clears (m : Nat) (h : m &&& CREATE ≠ 0) :
    (m ^^^ CREATE) &&& CREATE = 0 := by
  rw [Nat.and_xor_distrib_right]
  have hle : m &&& CREATE ≤ CREATE := Nat.and_le_right
  have h1 : m &&& CREATE = 1 := by
    unfold CREATE at hle h ⊢
    omega
  rw [h1]
  decide

/-- C1 (amended): a completing pointer-up whose stroke yields fewer than 3
distinct vertices adds no polygon and leaves the store unchanged, but the
change notification with reason "create" still fires (`updateFor` is
invoked unconditionally in the create branch of `mouseUp`). -/
theorem c1_short_stroke_store_unchanged_but_notified (st : MapState) (e : JsEvent)
    (hpc : e.etype ≠ some "pointercancel")
    (h : (distinctVals (st.latLngs.map LatLng.val)).length < 3) :
    (mouseUp st e true).store = st.store ∧
    (mouseUp st e true).notifications = st.notifications ++ ["create"] := by
  rw [mouseUp_create_eq st e hpc]
  exact finishCreate_short (teardown st) h

/-- C1 witness: a mousedown at (5,5) followed by one move at (6,6) and a
completing mouseup: one captured vertex, the store stays empty, and the
"create" notification fires. -/
theorem c1_witness :
    ((muEvent 6 6).etype ≠ some "pointercancel") ∧
    ((distinctVals (c1WitnessSt.latLngs.map LatLng.val)).length < 3) ∧
    ((mouseUp c1WitnessSt (muEvent 6 6) true).store = c1WitnessSt.store ∧
     (mouseUp c1WitnessSt (muEvent 6 6) true).notifications
       = c1WitnessSt.notifications ++ ["create"]) :=
  ⟨by decide, by decide,
    c1_short_stroke_store_unchanged_but_notified c1WitnessSt (muEvent 6 6)
      (by decide) (by decide)⟩

/-- C1 counterexample: the claim says no change notification fires for a
stroke with fewer than 3 usable vertices; on the concrete one-point gesture
mousedown (5,5), move (6,6), mouseup, the store indeed stays empty but the
notification log ends up `["create"]`, so a change notification did fire. -/
theorem c1_counterexample :
    (steps (initState defaultOptions)
        [Ev.down (mdEvent 5 5), Ev.move (mmEvent 6 6), Ev.up (muEvent 6 6)]).store = [] ∧
    (steps (initState defaultOptions)
        [Ev.down (mdEvent 5 5), Ev.move (mmEvent 6 6), Ev.up (muEvent 6 6)]).latLngs.length = 1 ∧
    (steps (initState defaultOptions)
        [Ev.down (mdEvent 5 5), Ev.move (mmEvent 6 6), Ev.up (muEvent 6 6)]).notifications
      = ["create"] := by decide

/-- C2 (amended): `mouseUp` ignores a `pointercancel` event entirely — no
listener teardown, no canvas clear, no state change at all — while every
other invocation (pointer-up, body mouseleave, explicit cancel)
unconditionally unregisters the move/up listeners, clears the SVG canvas
and disarms the cancel hook. -/
theorem c2_pointercancel_ignored_others_teardown (st : MapState) (e : JsEvent)
    (create : Bool) :
    (e.etype = some "pointercancel" → mouseUp st e create = st) ∧
    (e.etype ≠ some "pointercancel" →
      (mouseUp st e create).mouseMoveOn = false ∧
      (mouseUp st e create).mouseUpOn = false ∧
      (mouseUp st e create).touchMoveOn = false ∧
      (mouseUp st e create).touchEndOn = false ∧
      (mouseUp st e create).bodyLeaveOn = false ∧
      (mouseUp st e create).svgPaths = 0 ∧
      (mouseUp st e create).cancelHook = CancelHook.noop) := by
  constructor
  · intro h
    unfold mouseUp
    rw [if_pos h]
  · intro h
    have hmu : mouseUp st e create
        = if create then finishCreate (teardown st) else teardown st := by
      unfold mouseUp
      rw [if_neg h]
    rw [hmu]
    cases create
    · exact ⟨rfl, rfl, rfl, rfl, rfl, rfl, rfl⟩
    · simpa [teardown] using finishCreate_teardown_fields (teardown st)

/-- C2 witness: on a concrete mid-capture state, a pointercancel leaves the
state untouched, while a plain mouseup unregisters the mousemove
listener. -/
theorem c2_witness :
    (pcEvent.etype = some "pointercancel") ∧
    (mouseUp c2CapSt pcEvent true = c2CapSt) ∧
    ((muEvent 6 6).etype ≠ some "pointercancel") ∧
    (mouseUp c2CapSt (muEvent 6 6) true).mouseMoveOn = false :=
  ⟨by decide,
   (c2_pointercancel_ignored_others_teardown c2CapSt pcEvent true).1 (by decide),
   by decide,
   ((c2_pointercancel_ignored_others_teardown c2CapSt (muEvent 6 6) true).2 (by decide)).1⟩

/-- C2 counterexample: in a concrete Capturing state (listeners registered,
one SVG segment drawn), delivering a pointercancel changes nothing: the
move/up listeners stay registered, the canvas is not cleared and the
gesture remains in Capturing — contradicting the claim that the handler
unconditionally unregisters the listeners and clears the canvas. -/
theorem c2_counterexample :
    step c2CapSt (Ev.up pcEvent) = c2CapSt ∧
    c2CapSt.mouseMoveOn = true ∧
    c2CapSt.mouseUpOn = true ∧
    c2CapSt.svgPaths = 1 ∧
    isCapturing c2CapSt = true := by decide

/-- C3 (amended): the stroke `Set` is duplicate-free only by object
identity (ES6 SameValueZero). Every mouse move allocates a fresh LatLng
object, so the membership test never fires and each visited point value is
appended in order — a value visited twice is recorded twice. -/
theorem c3_stroke_appends_fresh_object (st : MapState) (e : JsEvent)
    (hinv : oidInv st) :
    (mouseMove st e).latLngs
      = st.latLngs ++ [⟨st.nextOid, (eventPixel e).x, (eventPixel e).y⟩] ∧
    oidInv (mouseMove st e) := by
  obtain ⟨hlt, hnd⟩ := hinv
  have hg : (⟨st.nextOid, (eventPixel e).x, (eventPixel e).y⟩ : LatLng) ∉ st.latLngs := by
    intro hm
    exact absurd (hlt _ hm) (by simp)
  have hadd : setAdd st.latLngs ⟨st.nextOid, (eventPixel e).x, (eventPixel e).y⟩
      = st.latLngs ++ [⟨st.nextOid, (eventPixel e).x, (eventPixel e).y⟩] := by
    unfold setAdd
    rw [if_neg hg]
  have hlat : (mouseMove st e).latLngs
      = st.latLngs ++ [⟨st.nextOid, (eventPixel e).x, (eventPixel e).y⟩] := hadd
  refine ⟨hlat, ?_, ?_⟩
  · intro p hp
    have hnext : (mouseMove st e).nextOid = st.nextOid + 1 := rfl
    rw [hlat] at hp
    rw [hnext]
    rcases List.mem_append.1 hp with hp1 | hp2
    · exact Nat.lt_succ_of_lt (hlt p hp1)
    · rw [List.mem_singleton.1 hp2]
      exact Nat.lt_succ_self _
  · show ((mouseMove st e).latLngs.map LatLng.oid).Nodup
    rw [hlat, List.map_append, List.nodup_append]
    refine ⟨hnd, List.nodup_singleton _, ?_⟩
    intro a ha hb
    rcases List.mem_map.1 ha with ⟨p, hp, hpo⟩
    have hb1 : a = st.nextOid := by
      simpa using hb
    have hplt := hlt p hp
    rw [hpo, hb1] at hplt
    exact Nat.lt_irrefl _ hplt

/-- C3 witness: from a concrete one-point capture satisfying the identity
invariant, a move at (1,2) appends a freshly allocated object carrying that
value, and the invariant is preserved. -/
theorem c3_witness :
    oidInv c3WitnessSt ∧
    ((mouseMove c3WitnessSt (mmEvent 1 2)).latLngs
        = c3WitnessSt.latLngs
            ++ [⟨c3WitnessSt.nextOid, (eventPixel (mmEvent 1 2)).x, (eventPixel (mmEvent 1 2)).y⟩] ∧
      oidInv (mouseMove c3WitnessSt (mmEvent 1 2))) :=
  ⟨by decide, c3_stroke_appends_fresh_object c3WitnessSt (mmEvent 1 2) (by decide)⟩

/-- C3 counterexample: a capture visiting the point value (1,2), then
(3,4), then (1,2) again hands the builder the value sequence
[(1,2), (3,4), (1,2)] — the value visited twice is recorded twice, so the
collection is not duplicate-free by value as the claim states. -/
theorem c3_counterexample :
    (c3RepeatSt.latLngs.map LatLng.val) = [(1, 2), (3, 4), (1, 2)] ∧
    ¬ (c3RepeatSt.latLngs.map LatLng.val).Nodup := by decide

/-- C4: a mousedown or touchstart delivered while the CREATE bit is unset
in `map[modesKey]` is a complete no-op: the state is unchanged, so the
Capturing state is never entered and the polygon store keeps its size. -/
theorem c4_pointer_down_gated_on_create (st : MapState) (e : JsEvent)
    (h : st.modes &&& CREATE = 0) :
    mouseDown st e = st ∧ touchStart st e = st ∧
    isCapturing (mouseDown st e) = isCapturing st ∧
    (mouseDown st e).store = st.store ∧ (touchStart st e).store = st.store := by
  have h1 : mouseDown st e = st := by
    unfold mouseDown
    rw [if_pos h]
  have h2 : touchStart st e = st := by
    unfold touchStart
    rw [if_pos h]
  exact ⟨h1, h2, by rw [h1], by rw [h1], by rw [h2]⟩

/-- C4 witness: on an instance attached with mode EDIT (CREATE unset), a
concrete mousedown at (5,5) changes nothing. -/
theorem c4_witness :
    (c4St.modes &&& CREATE = 0) ∧
    (mouseDown c4St (mdEvent 5 5) = c4St ∧ touchStart c4St (mdEvent 5 5) = c4St ∧
     isCapturing (mouseDown c4St (mdEvent 5 5)) = isCapturing c4St ∧
     (mouseDown c4St (mdEvent 5 5)).store = c4St.store ∧
     (touchStart c4St (mdEvent 5 5)).store = c4St.store) :=
  ⟨by decide, c4_pointer_down_gated_on_create c4St (mdEvent 5 5) (by decide)⟩

/-- C5: `cancel()` is idempotent: it is a no-op on the state right after
attach (the hook is disarmed), `cancel ∘ cancel` equals `cancel` on every
state, and a cancel never touches the polygon store and never fires a
notification — in particular it produces no polygon. -/
theorem c5_cancel_idempotent :
    (∀ o : Options, cancel (initState o) = initState o) ∧
    (∀ st : MapState, cancel (cancel st) = cancel st) ∧
    (∀ st : MapState,
      (cancel st).store = st.store ∧ (cancel st).notifications = st.notifications) := by
  refine ⟨fun o => rfl, fun st => ?_, fun st => ?_⟩
  · cases h : st.cancelHook
    · simp [cancel, h]
    · simp [cancel, h, mouseUp, emptyEvent, teardown]
  · cases h : st.cancelHook
    · simp [cancel, h]
    · simp [cancel, h, mouseUp, emptyEvent, teardown]

/-- C6 (amended): on a completing pointer-up with `leaveModeAfterCreate`
enabled, the CREATE bit is toggled (`mode ^ CREATE`), not cleared: when the
bit is set at the moment of the pointer-up it ends up unset, but when it
was already unset the XOR turns it back on. -/
theorem c6_leave_mode_toggles_create (st : MapState) (e : JsEvent)
    (hpc : e.etype ≠ some "pointercancel")
    (hopt : st.opts.leaveModeAfterCreate = true) :
    (mouseUp st e true).modes = st.modes ^^^ CREATE ∧
    (st.modes &&& CREATE ≠ 0 → (mouseUp st e true).modes &&& CREATE = 0) := by
  have hmodes : (mouseUp st e true).modes = st.modes ^^^ CREATE := by
    rw [mouseUp_create_eq st e hpc]
    exact finishCreate_modes (teardown st) hopt
  refine ⟨hmodes, fun h => ?_⟩
  rw [hmodes]
  exact xor_create_clears st.modes h

/-- C6 witness: a three-point capture under `leaveModeAfterCreate` with the
CREATE bit still set at pointer-up: afterwards the mode is the old mode
XOR CREATE, and the CREATE bit is unset. -/
theorem c6_witness :
    ((muEvent 9 9).etype ≠ some "pointercancel") ∧
    (c6WitnessSt.opts.leaveModeAfterCreate = true) ∧
    ((mouseUp c6WitnessSt (muEvent 9 9) true).modes = c6WitnessSt.modes ^^^ CREATE ∧
     (c6WitnessSt.modes &&& CREATE ≠ 0 →
       (mouseUp c6WitnessSt (muEvent 9 9) true).modes &&& CREATE = 0)) :=
  ⟨by decide, by decide,
    c6_leave_mode_toggles_create c6WitnessSt (muEvent 9 9) (by decide) (by decide)⟩

/-- C6 counterexample: the claim says the CREATE bit is unset afterward
regardless of the ModeSet at the pointer-up. In the concrete scenario where
the application switches the mode to EDIT during the capture (so CREATE is
unset at the pointer-up), the XOR in `mouseUp` turns the CREATE bit back ON
after the completing pointer-up. -/
theorem c6_counterexample :
    c6Mid.opts.leaveModeAfterCreate = true ∧
    c6Mid.modes &&& CREATE = 0 ∧
    isCapturing c6Mid = true ∧
    (step c6Mid (Ev.up (muEvent 9 9))).modes &&& CREATE ≠ 0 := by decide

/-- C7: a pointer-down whose client coordinates are both zero (the
touch-emulation artifact) is ignored by `mouseDown`: the state is
unchanged, so capture does not start, no stroke state is created and no
listeners are registered. -/
theorem c7_degenerate_pointer_down_ignored (st : MapState) (e : JsEvent)
    (hx : e.clientX = 0) (hy : e.clientY = 0) :
    mouseDown st e = st ∧
    isCapturing (mouseDown st e) = isCapturing st ∧
    (mouseDown st e).mouseMoveOn = st.mouseMoveOn ∧
    (mouseDown st e).mouseUpOn = st.mouseUpOn ∧
    (mouseDown st e).bodyLeaveOn = st.bodyLeaveOn ∧
    (mouseDown st e).latLngs = st.latLngs := by
  have h1 : mouseDown st e = st := by
    unfold mouseDown
    by_cases hm : st.modes &&& CREATE = 0
    · rw [if_pos hm]
    · rw [if_neg hm, if_pos ⟨hx, hy⟩]
  exact ⟨h1, by rw [h1], by rw [h1], by rw [h1], by rw [h1], by rw [h1]⟩

/-- C7 witness: a (0,0) mousedown on a freshly attached default instance
(CREATE set) changes nothing. -/
theorem c7_witness :
    ((mdEvent 0 0).clientX = 0) ∧ ((mdEvent 0 0).clientY = 0) ∧
    mouseDown (initState defaultOptions) (mdEvent 0 0) = initState defaultOptions :=
  ⟨by decide, by decide,
    (c7_degenerate_pointer_down_ignored (initState defaultOptions) (mdEvent 0 0)
      (by decide) (by decide)).1⟩

/-- C8: `mode()` with a non-numeric argument neither throws (it is a total
function) nor changes `map[modesKey]`; it returns the current bitmask,
exactly as the no-argument call (default `null`) does. -/
theorem c8_mode_non_numeric_is_pure_query (st : MapState) (arg : JsVal)
    (h : arg.isNumber = false) :
    modeMethod st arg = (st, st.modes) ∧ modeMethod st JsVal.null = (st, st.modes) := by
  constructor
  · cases arg <;> simp_all [modeMethod, JsVal.isNumber]
  · rfl

/-- C8 witness: passing the string "edit" to `mode()` on a default attached
instance leaves the state alone and returns the current mask. -/
theorem c8_witness :
    ((JsVal.str "edit").isNumber = false) ∧
    modeMethod (initState defaultOptions) (JsVal.str "edit")
      = (initState defaultOptions, (initState defaultOptions).modes) :=
  ⟨by decide,
    (c8_mode_non_numeric_is_pure_query (initState defaultOptions) (JsVal.str "edit")
      (by decide)).1⟩

/-- C9: the constructor shallow-merges the provided partial options over
the defaults, and with no options the configuration is exactly: mode ALL,
smoothFactor 0.3, elbowDistance 10, simplifyFactor 1.1, mergePolygons
true, concavePolygon true, maximumPolygons Infinity, notifyAfterEditExit
false, leaveModeAfterCreate false, strokeWidth 2. -/
theorem c9_constructor_option_merging (p : PartialOptions) :
    constructorOptions none
      = ⟨ALL, 3/10, 10, 11/10, true, true, JsNum.inf, false, false, 2⟩ ∧
    constructorOptions (some p)
      = ⟨p.mode.getD ALL, p.smoothFactor.getD (3/10), p.elbowDistance.getD 10,
         p.simplifyFactor.getD (11/10), p.mergePolygons.getD true,
         p.concavePolygon.getD true, p.maximumPolygons.getD JsNum.inf,
         p.notifyAfterEditExit.getD false, p.leaveModeAfterCreate.getD false,
         p.strokeWidth.getD 2⟩ := by
  have h3 : mkRat 3 10 = 3/10 := by
    rw [Rat.mkRat_eq_div]
    norm_num
  have h11 : mkRat 11 10 = 11/10 := by
    rw [Rat.mkRat_eq_div]
    norm_num
  constructor
  · show spreadMerge defaultOptions (partialOfOptions defaultOptions) = _
    simp [spreadMerge, partialOfOptions, defaultOptions, h3, h11]
  · show spreadMerge defaultOptions p = _
    simp [spreadMerge, defaultOptions, h3, h11]

/-- C10 (amended): `remove()` with a falsy argument performs no individual
`removeFor` deletion; instead it removes the entire FreeDraw layer via the
superclass, whose synchronous `onRemove` hook deletes the whole per-map
polygon store (`polygons.delete(map)`), removes the SVG layer and
unregisters the permanent mousedown/touchstart listeners — and the change
notification with reason "remove" still fires afterwards. -/
theorem c10_remove_falsy_detaches_layer_and_store (st : MapState)
    (h : st.layerOnMap = true) :
    (removeMethod st none).layerOnMap = false ∧
    (removeMethod st none).storePresent = false ∧
    (removeMethod st none).store = [] ∧
    (removeMethod st none).svgAttached = false ∧
    (removeMethod st none).downListenersOn = false ∧
    (removeMethod st none).notifications = st.notifications ++ ["remove"] := by
  have hsuper : superRemove st = { onRemove st with layerOnMap := false } := by
    unfold superRemove
    rw [if_pos h]
  have hrm : removeMethod st none
      = updateFor { onRemove st with layerOnMap := false } "remove" := by
    unfold removeMethod
    rw [hsuper]
  rw [hrm]
  exact ⟨rfl, rfl, rfl, rfl, rfl, rfl⟩

/-- C10 witness: on a concrete attached instance holding one polygon, a
falsy `remove()` detaches the layer, destroys the store entry and fires
the "remove" notification. -/
theorem c10_witness :
    (c10St.layerOnMap = true) ∧
    ((removeMethod c10St none).layerOnMap = false ∧
     (removeMethod c10St none).storePresent = false ∧
     (removeMethod c10St none).store = [] ∧
     (removeMethod c10St none).svgAttached = false ∧
     (removeMethod c10St none).downListenersOn = false ∧
     (removeMethod c10St none).notifications = c10St.notifications ++ ["remove"]) :=
  ⟨by decide, c10_remove_falsy_detaches_layer_and_store c10St (by decide)⟩

/-- C10 counterexample: the claim says a falsy `remove()` does not remove a
polygon from the Store. On a concrete instance whose store holds one
polygon, `super.remove()`'s synchronous `onRemove` re-entry runs
`polygons.delete(map)`, so afterwards the per-map store entry is gone and
the polygon with it — it is removed from the Store, wholesale, before the
"remove" notification fires. -/
theorem c10_counterexample :
    c10St.storePresent = true ∧
    c10St.store = [0] ∧
    (removeMethod c10St none).storePresent = false ∧
    (removeMethod c10St none).store = [] ∧
    (removeMethod c10St none).notifications = ["create", "remove"] := by decide

end FreeDraw
